import Mathlib

/-!
Shallow embedding of the lazy-brush library: the `LazyBrush` controller from
`src/LazyBrush.ts` together with the `LazyPoint` 2D-point primitive it uses.
`LazyPoint.ts` is not among the available sources, so its operations are
modelled from the specification (§4.1); everything else is translated from
`src/LazyBrush.ts`.  JavaScript numbers are modelled as real numbers,
`Math.round` as `⌊x + 1/2⌋` (JavaScript rounds half-way cases toward
positive infinity), and JavaScript truthiness of numeric option fields
(`options.friction`, `options.radius`) is modelled explicitly: a number is
falsy exactly when it is `0` (or absent).
-/

namespace LazyBrushLib

open scoped Classical

noncomputable section

/-- JavaScript `Math.round` on reals: half-way cases round toward positive infinity. -/
def jsRound (x : ℝ) : ℤ := ⌊x + 1 / 2⌋

/-- Modelled from the spec: the `atan2`-based direction angle of the vector `(x, y)`,
with the JavaScript convention `atan2(0, 0) = 0`. -/
def atan2 (y x : ℝ) : ℝ :=
  if 0 < x then Real.arctan (y / x)
  else if x < 0 ∧ 0 ≤ y then Real.arctan (y / x) + Real.pi
  else if x < 0 then Real.arctan (y / x) - Real.pi
  else if 0 < y then Real.pi / 2
  else if y < 0 then -(Real.pi / 2)
  else 0

/-- Modelled from the spec: the plain point value type `{x, y}` of `LazyPoint.ts`. -/
@[ext]
structure Point where
  x : ℝ
  y : ℝ

/-- Modelled from the spec: `LazyPoint` from `LazyPoint.ts` (not among the sources),
an owned mutable 2D coordinate pair. -/
@[ext]
structure LazyPoint where
  x : ℝ
  y : ℝ

/-- Modelled from the spec: `LazyPoint.equalsTo` — exact equality on both coordinates. -/
def LazyPoint.equalsTo (p : LazyPoint) (q : Point) : Prop :=
  p.x = q.x ∧ p.y = q.y

/-- Modelled from the spec: `LazyPoint.update` — overwrite the coordinates with `q`. -/
def LazyPoint.update (_p : LazyPoint) (q : Point) : LazyPoint :=
  ⟨q.x, q.y⟩

/-- Modelled from the spec: `LazyPoint.getDistanceTo` — Euclidean distance. -/
def LazyPoint.getDistanceTo (p q : LazyPoint) : ℝ :=
  Real.sqrt ((p.x - q.x) ^ 2 + (p.y - q.y) ^ 2)

/-- Modelled from the spec: `LazyPoint.getAngleTo` — the direction angle of the vector
pointing from the other point toward this point. -/
def LazyPoint.getAngleTo (p q : LazyPoint) : ℝ :=
  atan2 (p.y - q.y) (p.x - q.x)

/-- Modelled from the spec: `LazyPoint.moveByAngle` — polar displacement
`(cos angle * dist, sin angle * dist)`, scaled by `friction` when one is given. -/
def LazyPoint.moveByAngle (p : LazyPoint) (angle dist : ℝ) (friction : Option ℝ) :
    LazyPoint :=
  match friction with
  | some f => ⟨p.x + Real.cos angle * (dist * f), p.y + Real.sin angle * (dist * f)⟩
  | none => ⟨p.x + Real.cos angle * dist, p.y + Real.sin angle * dist⟩

/-- Modelled from the spec: `LazyPoint.toObject` — an independent `{x, y}` snapshot. -/
def LazyPoint.toObject (p : LazyPoint) : Point :=
  ⟨p.x, p.y⟩

/-- JavaScript truthiness of an optional numeric field: present and nonzero. -/
def OptNum.truthy : Option ℝ → Prop
  | some f => f ≠ 0
  | none => False

/-- The default radius constant `RADIUS_DEFAULT` of `LazyBrush.ts`. -/
def RADIUS_DEFAULT : ℝ := 30

/-- The `LazyBrushOptions` constructor options of `LazyBrush.ts`; a field absent in
JavaScript is `none`. -/
structure LazyBrushOptions where
  radius : Option ℝ
  enabled : Option Bool
  initialPoint : Option Point

/-- The `LazyBrushUpdateOptions` of `LazyBrush.ts`.  `both` models the JavaScript
truthiness of `options.both` (absent means falsy). -/
structure LazyBrushUpdateOptions where
  both : Bool
  friction : Option ℝ

/-- The state of a `LazyBrush` controller (all fields of the class in `LazyBrush.ts`,
including the never-read `velocity` point). -/
@[ext]
structure LazyBrush where
  _isEnabled : Bool
  _hasMoved : Bool
  radius : ℝ
  pointer : LazyPoint
  brush : LazyPoint
  angle : ℝ
  distance : ℝ
  velocity : LazyPoint

/-- The `LazyBrush` constructor: `options.radius || RADIUS_DEFAULT` (a falsy, i.e.
zero or absent, radius falls back to the default), `_isEnabled` set only when
`options.enabled === true`, and the three points initialized to `initialPoint`
(default origin). -/
def LazyBrush.construct (options : LazyBrushOptions) : LazyBrush :=
  let initialPoint := options.initialPoint.getD ⟨0, 0⟩
  { _isEnabled := options.enabled.getD false
    _hasMoved := false
    radius :=
      match options.radius with
      | some r => if r = 0 then RADIUS_DEFAULT else r
      | none => RADIUS_DEFAULT
    pointer := ⟨initialPoint.x, initialPoint.y⟩
    brush := ⟨initialPoint.x, initialPoint.y⟩
    angle := 0
    distance := 0
    velocity := ⟨initialPoint.x, initialPoint.y⟩ }

/-- `LazyBrush.enable`. -/
def LazyBrush.enable (s : LazyBrush) : LazyBrush :=
  { s with _isEnabled := true }

/-- `LazyBrush.disable`. -/
def LazyBrush.disable (s : LazyBrush) : LazyBrush :=
  { s with _isEnabled := false }

/-- `LazyBrush.isEnabled`. -/
def LazyBrush.isEnabled (s : LazyBrush) : Bool :=
  s._isEnabled

/-- `LazyBrush.setRadius` — stores the given radius with no validation. -/
def LazyBrush.setRadius (s : LazyBrush) (radius : ℝ) : LazyBrush :=
  { s with radius := radius }

/-- `LazyBrush.getRadius`. -/
def LazyBrush.getRadius (s : LazyBrush) : ℝ :=
  s.radius

/-- `LazyBrush.getBrushCoordinates`. -/
def LazyBrush.getBrushCoordinates (s : LazyBrush) : Point :=
  s.brush.toObject

/-- `LazyBrush.getPointerCoordinates`. -/
def LazyBrush.getPointerCoordinates (s : LazyBrush) : Point :=
  s.pointer.toObject

/-- `LazyBrush.getAngle`. -/
def LazyBrush.getAngle (s : LazyBrush) : ℝ :=
  s.angle

/-- `LazyBrush.getDistance`. -/
def LazyBrush.getDistance (s : LazyBrush) : ℝ :=
  s.distance

/-- `LazyBrush.brushHasMoved`. -/
def LazyBrush.brushHasMoved (s : LazyBrush) : Bool :=
  s._hasMoved

/-- The outside-radius test of `LazyBrush.update`:
`Math.round((distance - radius) * 10) / 10 > 0`. -/
def isOutsideTest (distance radius : ℝ) : Prop :=
  ((jsRound ((distance - radius) * 10) : ℝ) / 10) > 0

/-- The friction normalization of `LazyBrush.update`:
`options.friction && options.friction < 1 ? Math.min(Math.max(options.friction, 0.01), 1) : undefined`. -/
def effectiveFriction (options : LazyBrushUpdateOptions) : Option ℝ :=
  match options.friction with
  | some f => if f ≠ 0 ∧ f < 1 then some (min (max f 0.01) 1) else none
  | none => none

/-- `LazyBrush.update` from `LazyBrush.ts`, translated branch by branch: the
sequential field mutations of each path are collected into one record update,
and the returned boolean is paired with the final state. -/
def LazyBrush.update (s : LazyBrush) (newPointerPoint : Point)
    (options : LazyBrushUpdateOptions) : LazyBrush × Bool :=
  if s.pointer.equalsTo newPointerPoint ∧ options.both = false ∧
      ¬ OptNum.truthy options.friction then
    ({ s with _hasMoved := false }, false)
  else if options.both then
    ({ s with
        _hasMoved := true
        pointer := s.pointer.update newPointerPoint
        brush := s.brush.update newPointerPoint }, true)
  else if s._isEnabled then
    if isOutsideTest ((s.pointer.update newPointerPoint).getDistanceTo s.brush) s.radius then
      ({ s with
          _hasMoved := true
          pointer := s.pointer.update newPointerPoint
          distance := (s.pointer.update newPointerPoint).getDistanceTo s.brush
          angle := (s.pointer.update newPointerPoint).getAngleTo s.brush
          brush := s.brush.moveByAngle
            ((s.pointer.update newPointerPoint).getAngleTo s.brush)
            ((s.pointer.update newPointerPoint).getDistanceTo s.brush - s.radius)
            (effectiveFriction options) }, true)
    else
      ({ s with
          _hasMoved := false
          pointer := s.pointer.update newPointerPoint
          distance := (s.pointer.update newPointerPoint).getDistanceTo s.brush
          angle := (s.pointer.update newPointerPoint).getAngleTo s.brush }, true)
  else
    ({ s with
        _hasMoved := true
        pointer := s.pointer.update newPointerPoint
        distance := 0
        angle := 0
        brush := s.brush.update newPointerPoint }, true)

/-- Folding `update` (with empty options) over a list of pointer samples. -/
def runUpdates (s : LazyBrush) (ps : List Point) : LazyBrush :=
  ps.foldl (fun t p => (t.update p ⟨false, none⟩).1) s

/-- A controller constructed with no options: disabled, radius 30, at the origin. -/
def sDefault : LazyBrush :=
  LazyBrush.construct ⟨none, none, none⟩

/-- A controller constructed with radius 30, enabled, initial point the origin. -/
def sEnabled : LazyBrush :=
  LazyBrush.construct ⟨some 30, some true, some ⟨0, 0⟩⟩

end

lemma LazyPoint.equalsTo_update (p : LazyPoint) (q : Point) : (p.update q).equalsTo q :=
  ⟨rfl, rfl⟩

lemma LazyPoint.toObject_update (p : LazyPoint) (q : Point) : (p.update q).toObject = q :=
  rfl

lemma OptNum.not_truthy_none : ¬ OptNum.truthy none :=
  id

lemma sEnabled_isEnabled : sEnabled._isEnabled = true := rfl

lemma sEnabled_hasMoved : sEnabled._hasMoved = false := rfl

lemma sEnabled_pointer : sEnabled.pointer = ⟨0, 0⟩ := rfl

lemma sEnabled_brush : sEnabled.brush = ⟨0, 0⟩ := rfl

lemma sEnabled_angle : sEnabled.angle = 0 := rfl

lemma sEnabled_distance : sEnabled.distance = 0 := rfl

lemma sEnabled_velocity : sEnabled.velocity = ⟨0, 0⟩ := rfl

lemma sEnabled_radius : sEnabled.radius = 30 := by
  simp [sEnabled, LazyBrush.construct, RADIUS_DEFAULT]

lemma sDefault_isEnabled : sDefault._isEnabled = false := rfl

lemma sDefault_pointer : sDefault.pointer = ⟨0, 0⟩ := rfl

lemma sDefault_brush : sDefault.brush = ⟨0, 0⟩ := rfl

/-- The one-decimal rounding test `Math.round((d - r) * 10) / 10 > 0` holds exactly
when `d - r` is at least `0.05`. -/
lemma isOutsideTest_iff (d r : ℝ) : isOutsideTest d r ↔ 1 / 20 ≤ d - r := by
  unfold isOutsideTest jsRound
  rw [gt_iff_lt, lt_div_iff₀ (by norm_num : (0:ℝ) < 10), zero_mul, Int.cast_pos,
    Int.lt_iff_add_one_le, zero_add, Int.le_floor]
  push_cast
  constructor <;> intro h <;> linarith

/-- Short-circuit branch of `update`: unchanged pointer, falsy `both` and falsy
`friction` return `false` after resetting `_hasMoved`. -/
lemma update_shortCircuit (s : LazyBrush) (p : Point) (o : LazyBrushUpdateOptions)
    (h1 : s.pointer.equalsTo p) (h2 : o.both = false) (h3 : ¬ OptNum.truthy o.friction) :
    s.update p o = ({ s with _hasMoved := false }, false) := by
  unfold LazyBrush.update
  rw [if_pos ⟨h1, h2, h3⟩]

/-- Forced-sync branch of `update`: truthy `both` snaps pointer and brush to the input. -/
lemma update_both (s : LazyBrush) (p : Point) (o : LazyBrushUpdateOptions)
    (h : o.both = true) :
    s.update p o =
      ({ s with
          _hasMoved := true
          pointer := s.pointer.update p
          brush := s.brush.update p }, true) := by
  unfold LazyBrush.update
  rw [if_neg fun hc => absurd hc.2.1 (by simp [h]), if_pos h]

/-- Enabled branch of `update` with the outside-radius test true: the brush is
displaced toward the pointer by `distance - radius`, damped by the normalized friction. -/
lemma update_enabled_outside (s : LazyBrush) (p : Point) (o : LazyBrushUpdateOptions)
    (hsc : ¬ s.pointer.equalsTo p ∨ OptNum.truthy o.friction)
    (hb : o.both = false) (hen : s._isEnabled = true)
    (hout : isOutsideTest ((s.pointer.update p).getDistanceTo s.brush) s.radius) :
    s.update p o =
      ({ s with
          _hasMoved := true
          pointer := s.pointer.update p
          distance := (s.pointer.update p).getDistanceTo s.brush
          angle := (s.pointer.update p).getAngleTo s.brush
          brush := s.brush.moveByAngle ((s.pointer.update p).getAngleTo s.brush)
            ((s.pointer.update p).getDistanceTo s.brush - s.radius)
            (effectiveFriction o) }, true) := by
  unfold LazyBrush.update
  rw [if_neg fun hc => hsc.elim (fun hne => hne hc.1) (fun ht => hc.2.2 ht),
    if_neg (show ¬ o.both = true by simp [hb]), if_pos hen, if_pos hout]

/-- Enabled branch of `update` with the outside-radius test false: distance and angle
are recomputed but the brush stays put and `_hasMoved` stays false. -/
lemma update_enabled_inside (s : LazyBrush) (p : Point) (o : LazyBrushUpdateOptions)
    (hsc : ¬ s.pointer.equalsTo p ∨ OptNum.truthy o.friction)
    (hb : o.both = false) (hen : s._isEnabled = true)
    (hout : ¬ isOutsideTest ((s.pointer.update p).getDistanceTo s.brush) s.radius) :
    s.update p o =
      ({ s with
          _hasMoved := false
          pointer := s.pointer.update p
          distance := (s.pointer.update p).getDistanceTo s.brush
          angle := (s.pointer.update p).getAngleTo s.brush }, true) := by
  unfold LazyBrush.update
  rw [if_neg fun hc => hsc.elim (fun hne => hne hc.1) (fun ht => hc.2.2 ht),
    if_neg (show ¬ o.both = true by simp [hb]), if_pos hen, if_neg hout]

/-- Disabled branch of `update`: distance and angle reset to 0 and the brush snaps
to the new pointer position. -/
lemma update_disabled (s : LazyBrush) (p : Point) (o : LazyBrushUpdateOptions)
    (hsc : ¬ s.pointer.equalsTo p ∨ OptNum.truthy o.friction)
    (hb : o.both = false) (hen : s._isEnabled = false) :
    s.update p o =
      ({ s with
          _hasMoved := true
          pointer := s.pointer.update p
          distance := 0
          angle := 0
          brush := s.brush.update p }, true) := by
  unfold LazyBrush.update
  rw [if_neg fun hc => hsc.elim (fun hne => hne hc.1) (fun ht => hc.2.2 ht),
    if_neg (show ¬ o.both = true by simp [hb]), if_neg (show ¬ s._isEnabled = true by simp [hen])]

/-- After any `update` call the stored pointer coincides with the submitted point. -/
lemma update_pointer_equalsTo (s : LazyBrush) (p : Point) (o : LazyBrushUpdateOptions) :
    ((s.update p o).1).pointer.equalsTo p := by
  unfold LazyBrush.update
  split
  · next h => exact h.1
  · split
    · exact LazyPoint.equalsTo_update s.pointer p
    · split
      · split
        · exact LazyPoint.equalsTo_update s.pointer p
        · exact LazyPoint.equalsTo_update s.pointer p
      · exact LazyPoint.equalsTo_update s.pointer p

/-- Evaluation helper for Euclidean distances with a known square root. -/
lemma getDistanceTo_eval (a b c d e : ℝ) (h : (a - c) ^ 2 + (b - d) ^ 2 = e ^ 2)
    (he : 0 ≤ e) : LazyPoint.getDistanceTo ⟨a, b⟩ ⟨c, d⟩ = e := by
  show Real.sqrt ((a - c) ^ 2 + (b - d) ^ 2) = e
  rw [h, Real.sqrt_sq he]

lemma atan2_of_pos (y x : ℝ) (hx : 0 < x) : atan2 y x = Real.arctan (y / x) := by
  unfold atan2
  rw [if_pos hx]

lemma atan2_zero_zero : atan2 0 0 = 0 := by
  unfold atan2
  norm_num

lemma not_equalsTo_origin_100 : ¬ (⟨0, 0⟩ : LazyPoint).equalsTo ⟨100, 0⟩ := by
  rintro ⟨h, -⟩
  norm_num at h

lemma not_equalsTo_origin_1 : ¬ (⟨0, 0⟩ : LazyPoint).equalsTo ⟨1, 0⟩ := by
  rintro ⟨h, -⟩
  norm_num at h

lemma dist_100 : LazyPoint.getDistanceTo ⟨100, 0⟩ ⟨0, 0⟩ = 100 :=
  getDistanceTo_eval 100 0 0 0 100 (by norm_num) (by norm_num)

lemma angle_100 : LazyPoint.getAngleTo ⟨100, 0⟩ ⟨0, 0⟩ = 0 := by
  show atan2 ((0:ℝ) - 0) ((100:ℝ) - 0) = 0
  rw [sub_zero, sub_zero, atan2_of_pos 0 100 (by norm_num), zero_div, Real.arctan_zero]

lemma moveByAngle_zero_none (p : LazyPoint) (d : ℝ) :
    p.moveByAngle 0 d none = ⟨p.x + d, p.y⟩ := by
  show (⟨p.x + Real.cos 0 * d, p.y + Real.sin 0 * d⟩ : LazyPoint) = ⟨p.x + d, p.y⟩
  rw [Real.cos_zero, Real.sin_zero, one_mul, zero_mul, add_zero]

lemma moveByAngle_zero_some (p : LazyPoint) (d f : ℝ) :
    p.moveByAngle 0 d (some f) = ⟨p.x + d * f, p.y⟩ := by
  show (⟨p.x + Real.cos 0 * (d * f), p.y + Real.sin 0 * (d * f)⟩ : LazyPoint) =
    ⟨p.x + d * f, p.y⟩
  rw [Real.cos_zero, Real.sin_zero, one_mul, zero_mul, add_zero]

lemma hne_100 : ¬ sEnabled.pointer.equalsTo ⟨100, 0⟩ := by
  rw [sEnabled_pointer]
  exact not_equalsTo_origin_100

lemma dist_expr_100 : (sEnabled.pointer.update ⟨100, 0⟩).getDistanceTo sEnabled.brush = 100 := by
  rw [show sEnabled.pointer.update ⟨100, 0⟩ = (⟨100, 0⟩ : LazyPoint) from rfl, sEnabled_brush]
  exact dist_100

lemma angle_expr_100 : (sEnabled.pointer.update ⟨100, 0⟩).getAngleTo sEnabled.brush = 0 := by
  rw [show sEnabled.pointer.update ⟨100, 0⟩ = (⟨100, 0⟩ : LazyPoint) from rfl, sEnabled_brush]
  exact angle_100

lemma hout_100 : isOutsideTest
    ((sEnabled.pointer.update ⟨100, 0⟩).getDistanceTo sEnabled.brush) sEnabled.radius := by
  rw [dist_expr_100, sEnabled_radius, isOutsideTest_iff]
  norm_num

/-- Evaluating the boundary-snap scenario of the spec: from the enabled controller at
the origin with radius 30, `update({x: 100, y: 0})` moves the brush to `(70, 0)`,
for any options whose `both` is falsy and whose normalized friction is undefined. -/
lemma sEnabled_update_100_gen (o : LazyBrushUpdateOptions) (hb : o.both = false)
    (heff : effectiveFriction o = none) :
    sEnabled.update ⟨100, 0⟩ o =
      ({ sEnabled with
          _hasMoved := true
          pointer := ⟨100, 0⟩
          distance := 100
          angle := 0
          brush := ⟨70, 0⟩ }, true) := by
  rw [update_enabled_outside sEnabled ⟨100, 0⟩ o (Or.inl hne_100) hb
    sEnabled_isEnabled hout_100, dist_expr_100, angle_expr_100,
    show sEnabled.pointer.update ⟨100, 0⟩ = (⟨100, 0⟩ : LazyPoint) from rfl]
  have hbr : sEnabled.brush.moveByAngle 0 (100 - sEnabled.radius)
      (effectiveFriction o) = (⟨70, 0⟩ : LazyPoint) := by
    rw [heff, sEnabled_radius, sEnabled_brush, moveByAngle_zero_none]
    have h70 : (0:ℝ) + (100 - 30) = 70 := by norm_num
    rw [h70]
  rw [hbr]

lemma sEnabled_update_100 :
    sEnabled.update ⟨100, 0⟩ ⟨false, none⟩ =
      ({ sEnabled with
          _hasMoved := true
          pointer := ⟨100, 0⟩
          distance := 100
          angle := 0
          brush := ⟨70, 0⟩ }, true) :=
  sEnabled_update_100_gen ⟨false, none⟩ rfl rfl

/-- Evaluating a disabled-mode update: from the default (disabled) controller at the
origin, `update({x: 1, y: 0})` snaps both points to `(1, 0)`. -/
lemma sDefault_update_1 :
    sDefault.update ⟨1, 0⟩ ⟨false, none⟩ =
      ({ sDefault with
          _hasMoved := true
          pointer := ⟨1, 0⟩
          distance := 0
          angle := 0
          brush := ⟨1, 0⟩ }, true) := by
  have hne : ¬ sDefault.pointer.equalsTo ⟨1, 0⟩ := by
    rw [sDefault_pointer]
    exact not_equalsTo_origin_1
  rw [update_disabled sDefault ⟨1, 0⟩ ⟨false, none⟩ (Or.inl hne) rfl sDefault_isEnabled]
  rfl

/-- C1: for every controller state and input point `p`, `update(p, {both: true})` sets
the brush position exactly to `p`, sets `hasMoved` to `true`, returns `true`, and
leaves the stored distance and angle unchanged (they are not recomputed), regardless
of the enabled flag, radius, or friction option. -/
theorem C1_forced_sync (s : LazyBrush) (p : Point) (f : Option ℝ) :
    ((s.update p ⟨true, f⟩).1).brush.toObject = p ∧
    ((s.update p ⟨true, f⟩).1)._hasMoved = true ∧
    (s.update p ⟨true, f⟩).2 = true ∧
    ((s.update p ⟨true, f⟩).1).distance = s.distance ∧
    ((s.update p ⟨true, f⟩).1).angle = s.angle := by
  rw [update_both s p ⟨true, f⟩ rfl]
  exact ⟨LazyPoint.toObject_update s.brush p, rfl, rfl, rfl, rfl⟩

/-- C2 counterexample: after a first `update(p)` that moved the brush, the immediate
second `update(p)` does return `false`, but it does change the state: `hasMoved` is
reset from `true` to `false` before the short-circuit return. -/
theorem C2_counterexample :
    (((sDefault.update ⟨1, 0⟩ ⟨false, none⟩).1).update ⟨1, 0⟩ ⟨false, none⟩).2 = false ∧
    ((sDefault.update ⟨1, 0⟩ ⟨false, none⟩).1)._hasMoved = true ∧
    ((((sDefault.update ⟨1, 0⟩ ⟨false, none⟩).1).update ⟨1, 0⟩ ⟨false, none⟩).1)._hasMoved
      = false := by
  have hsc := update_shortCircuit ((sDefault.update ⟨1, 0⟩ ⟨false, none⟩).1) ⟨1, 0⟩
    ⟨false, none⟩ (update_pointer_equalsTo sDefault ⟨1, 0⟩ ⟨false, none⟩) rfl
    OptNum.not_truthy_none
  rw [hsc]
  refine ⟨rfl, ?_, rfl⟩
  rw [sDefault_update_1]

/-- C2 (amended): calling `update(p)` twice in succession with identical `p` and no
`both`/`friction` options, the second call returns `false` and leaves every component
unchanged except `hasMoved`, which it resets to `false`. -/
theorem C2_second_call (s : LazyBrush) (p : Point) :
    (((s.update p ⟨false, none⟩).1).update p ⟨false, none⟩).2 = false ∧
    (((s.update p ⟨false, none⟩).1).update p ⟨false, none⟩).1 =
      { (s.update p ⟨false, none⟩).1 with _hasMoved := false } := by
  have hsc := update_shortCircuit ((s.update p ⟨false, none⟩).1) p ⟨false, none⟩
    (update_pointer_equalsTo s p ⟨false, none⟩) rfl OptNum.not_truthy_none
  rw [hsc]
  exact ⟨rfl, rfl⟩

/-- C3: with the enabled flag `false`, for every point `p` differing from the current
pointer, `update(p)` with no options makes the brush exactly `p`, sets distance to 0,
angle to 0, `hasMoved` to `true`, and returns `true`. -/
theorem C3_disabled_tracking (s : LazyBrush) (p : Point)
    (hen : s._isEnabled = false) (hne : ¬ s.pointer.equalsTo p) :
    ((s.update p ⟨false, none⟩).1).brush.toObject = p ∧
    ((s.update p ⟨false, none⟩).1).distance = 0 ∧
    ((s.update p ⟨false, none⟩).1).angle = 0 ∧
    ((s.update p ⟨false, none⟩).1)._hasMoved = true ∧
    (s.update p ⟨false, none⟩).2 = true := by
  rw [update_disabled s p ⟨false, none⟩ (Or.inl hne) rfl hen]
  exact ⟨LazyPoint.toObject_update s.brush p, rfl, rfl, rfl, rfl⟩

theorem C3_witness :
    sDefault._isEnabled = false ∧ ¬ sDefault.pointer.equalsTo ⟨1, 0⟩ ∧
      (((sDefault.update ⟨1, 0⟩ ⟨false, none⟩).1).brush.toObject = ⟨1, 0⟩ ∧
        ((sDefault.update ⟨1, 0⟩ ⟨false, none⟩).1).distance = 0 ∧
        ((sDefault.update ⟨1, 0⟩ ⟨false, none⟩).1).angle = 0 ∧
        ((sDefault.update ⟨1, 0⟩ ⟨false, none⟩).1)._hasMoved = true ∧
        (sDefault.update ⟨1, 0⟩ ⟨false, none⟩).2 = true) := by
  have hne : ¬ sDefault.pointer.equalsTo ⟨1, 0⟩ := by
    rw [sDefault_pointer]
    exact not_equalsTo_origin_1
  exact ⟨rfl, hne, C3_disabled_tracking sDefault ⟨1, 0⟩ rfl hne⟩

/-- C4 counterexample: move the brush in enabled mode, call `disable()`, then call
`update` with the unchanged pointer position: the call short-circuits, the state is
reachable, enabled is `false`, yet brush and pointer differ. -/
theorem C4_counterexample :
    ((((sEnabled.update ⟨100, 0⟩ ⟨false, none⟩).1).disable).update ⟨100, 0⟩
      ⟨false, none⟩).1._isEnabled = false ∧
    ((((sEnabled.update ⟨100, 0⟩ ⟨false, none⟩).1).disable).update ⟨100, 0⟩
      ⟨false, none⟩).1.brush.toObject ≠
    ((((sEnabled.update ⟨100, 0⟩ ⟨false, none⟩).1).disable).update ⟨100, 0⟩
      ⟨false, none⟩).1.pointer.toObject := by
  have hpe : (((sEnabled.update ⟨100, 0⟩ ⟨false, none⟩).1).disable).pointer.equalsTo
      ⟨100, 0⟩ := by
    rw [sEnabled_update_100]
    exact ⟨rfl, rfl⟩
  have hsc := update_shortCircuit (((sEnabled.update ⟨100, 0⟩ ⟨false, none⟩).1).disable)
    ⟨100, 0⟩ ⟨false, none⟩ hpe rfl OptNum.not_truthy_none
  rw [hsc]
  refine ⟨rfl, ?_⟩
  rw [sEnabled_update_100]
  intro h
  have hx := congrArg Point.x h
  norm_num [LazyPoint.toObject, LazyBrush.disable] at hx

/-- C4 (amended): whenever the enabled flag is `false`, after any `update(p, options)`
call that returns `true` the brush position equals the pointer position; a
short-circuited call (returning `false`) can leave a stale brush in place. -/
theorem C4_disabled_invariant (s : LazyBrush) (p : Point) (o : LazyBrushUpdateOptions)
    (hen : s._isEnabled = false) (htrue : (s.update p o).2 = true) :
    ((s.update p o).1).brush.toObject = ((s.update p o).1).pointer.toObject := by
  by_cases hb : o.both = true
  · rw [update_both s p o hb]
    rfl
  · have hb' : o.both = false := by
      revert hb
      cases o.both <;> simp
    by_cases hsc : s.pointer.equalsTo p ∧ o.both = false ∧ ¬ OptNum.truthy o.friction
    · rw [update_shortCircuit s p o hsc.1 hsc.2.1 hsc.2.2] at htrue
      exact absurd htrue (by simp)
    · have hsc' : ¬ s.pointer.equalsTo p ∨ OptNum.truthy o.friction := by
        by_cases he : s.pointer.equalsTo p
        · refine Or.inr ?_
          by_contra hnt
          exact hsc ⟨he, hb', hnt⟩
        · exact Or.inl he
      rw [update_disabled s p o hsc' hb' hen]
      rfl

theorem C4_witness :
    sDefault._isEnabled = false ∧ (sDefault.update ⟨1, 0⟩ ⟨false, none⟩).2 = true ∧
    ((sDefault.update ⟨1, 0⟩ ⟨false, none⟩).1).brush.toObject =
      ((sDefault.update ⟨1, 0⟩ ⟨false, none⟩).1).pointer.toObject := by
  have ht : (sDefault.update ⟨1, 0⟩ ⟨false, none⟩).2 = true := by
    rw [sDefault_update_1]
  exact ⟨rfl, ht, C4_disabled_invariant sDefault ⟨1, 0⟩ ⟨false, none⟩ rfl ht⟩

/-- C5: with radius 30, enabled, both points at the origin, a single
`update({x: 100, y: 0})` with no options sets the pointer to `(100, 0)`, moves the
brush exactly to `(70, 0)` so that the pointer-brush distance equals the radius
exactly, sets `hasMoved`, and returns `true`. -/
theorem C5_boundary_snap :
    ((sEnabled.update ⟨100, 0⟩ ⟨false, none⟩).1).pointer.toObject = ⟨100, 0⟩ ∧
    ((sEnabled.update ⟨100, 0⟩ ⟨false, none⟩).1).brush.toObject = ⟨70, 0⟩ ∧
    ((sEnabled.update ⟨100, 0⟩ ⟨false, none⟩).1).pointer.getDistanceTo
      ((sEnabled.update ⟨100, 0⟩ ⟨false, none⟩).1).brush = sEnabled.radius ∧
    ((sEnabled.update ⟨100, 0⟩ ⟨false, none⟩).1)._hasMoved = true ∧
    (sEnabled.update ⟨100, 0⟩ ⟨false, none⟩).2 = true := by
  rw [sEnabled_update_100]
  refine ⟨rfl, rfl, ?_, rfl, rfl⟩
  rw [sEnabled_radius]
  exact getDistanceTo_eval 100 0 70 0 30 (by norm_num) (by norm_num)

/-- One enabled-mode `update` with empty options whose pointer-brush distance stays
within the radius: the brush, the enabled flag and the radius are unchanged and
`_hasMoved` ends up `false`. -/
lemma update_preserve_inside (s : LazyBrush) (p : Point)
    (hen : s._isEnabled = true)
    (hd : LazyPoint.getDistanceTo ⟨p.x, p.y⟩ s.brush ≤ s.radius) :
    ((s.update p ⟨false, none⟩).1).brush = s.brush ∧
    ((s.update p ⟨false, none⟩).1)._hasMoved = false ∧
    ((s.update p ⟨false, none⟩).1)._isEnabled = true ∧
    ((s.update p ⟨false, none⟩).1).radius = s.radius := by
  by_cases hsc : s.pointer.equalsTo p
  · rw [update_shortCircuit s p ⟨false, none⟩ hsc rfl OptNum.not_truthy_none]
    exact ⟨rfl, rfl, hen, rfl⟩
  · have hout : ¬ isOutsideTest ((s.pointer.update p).getDistanceTo s.brush) s.radius := by
      rw [show s.pointer.update p = (⟨p.x, p.y⟩ : LazyPoint) from rfl, isOutsideTest_iff]
      intro hc
      linarith
    rw [update_enabled_inside s p ⟨false, none⟩ (Or.inl hsc) rfl hen hout]
    exact ⟨rfl, rfl, hen, rfl⟩

/-- Iterated form of `update_preserve_inside` over a whole sample list. -/
lemma runUpdates_inside (ps : List Point) : ∀ s : LazyBrush, s._isEnabled = true →
    (∀ p ∈ ps, LazyPoint.getDistanceTo ⟨p.x, p.y⟩ s.brush ≤ s.radius) →
    (runUpdates s ps).brush = s.brush ∧ (runUpdates s ps)._isEnabled = true ∧
    (runUpdates s ps).radius = s.radius ∧
    (ps = [] ∨ (runUpdates s ps)._hasMoved = false) := by
  induction ps with
  | nil =>
    intro s hen _
    exact ⟨rfl, hen, rfl, Or.inl rfl⟩
  | cons p rest ih =>
    intro s hen hin
    have hstep := update_preserve_inside s p hen (hin p (List.mem_cons_self p rest))
    have hrun : runUpdates s (p :: rest) = runUpdates ((s.update p ⟨false, none⟩).1) rest :=
      rfl
    have hin2 : ∀ q ∈ rest, LazyPoint.getDistanceTo ⟨q.x, q.y⟩
        ((s.update p ⟨false, none⟩).1).brush ≤ ((s.update p ⟨false, none⟩).1).radius := by
      intro q hq
      rw [hstep.1, hstep.2.2.2]
      exact hin q (List.mem_cons_of_mem p hq)
    have ihres := ih ((s.update p ⟨false, none⟩).1) hstep.2.2.1 hin2
    refine ⟨?_, ?_, ?_, Or.inr ?_⟩
    · rw [hrun, ihres.1, hstep.1]
    · rw [hrun]
      exact ihres.2.1
    · rw [hrun, ihres.2.2.1, hstep.2.2.2]
    · rcases ihres.2.2.2 with hnil | hmv
      · rw [hrun, hnil]
        exact hstep.2.1
      · rw [hrun]
        exact hmv

/-- C6: with the enabled flag `true` and no `both`/`friction` options, as long as the
pointer-brush distance stays within the radius at every call of the sequence, the
brush coordinates never change across the whole sequence (every prefix leaves the
brush where it started) and `hasMoved` is `false` after every call. -/
theorem C6_containment (s : LazyBrush) (ps : List Point) (hen : s._isEnabled = true)
    (hin : ∀ p ∈ ps, LazyPoint.getDistanceTo ⟨p.x, p.y⟩ s.brush ≤ s.radius) :
    ∀ pre suf, ps = pre ++ suf →
      (runUpdates s pre).brush = s.brush ∧
      (pre ≠ [] → (runUpdates s pre)._hasMoved = false) := by
  intro pre suf hps
  have hin2 : ∀ p ∈ pre, LazyPoint.getDistanceTo ⟨p.x, p.y⟩ s.brush ≤ s.radius := by
    intro p hp
    refine hin p ?_
    rw [hps]
    exact List.mem_append_left suf hp
  have h := runUpdates_inside pre s hen hin2
  refine ⟨h.1, fun hne => ?_⟩
  rcases h.2.2.2 with hnil | hmv
  · exact absurd hnil hne
  · exact hmv

theorem C6_witness :
    sEnabled._isEnabled = true ∧
    (∀ p ∈ [(⟨10, 0⟩ : Point), ⟨0, 20⟩],
      LazyPoint.getDistanceTo ⟨p.x, p.y⟩ sEnabled.brush ≤ sEnabled.radius) ∧
    ((runUpdates sEnabled [⟨10, 0⟩, ⟨0, 20⟩]).brush = sEnabled.brush ∧
      ([(⟨10, 0⟩ : Point), ⟨0, 20⟩] ≠ [] →
        (runUpdates sEnabled [⟨10, 0⟩, ⟨0, 20⟩])._hasMoved = false)) := by
  have hin : ∀ p ∈ [(⟨10, 0⟩ : Point), ⟨0, 20⟩],
      LazyPoint.getDistanceTo ⟨p.x, p.y⟩ sEnabled.brush ≤ sEnabled.radius := by
    intro p hp
    rw [sEnabled_brush, sEnabled_radius]
    rcases List.mem_cons.mp hp with rfl | hp2
    · show LazyPoint.getDistanceTo ⟨10, 0⟩ ⟨0, 0⟩ ≤ 30
      rw [getDistanceTo_eval 10 0 0 0 10 (by norm_num) (by norm_num)]
      norm_num
    · rcases List.mem_cons.mp hp2 with rfl | hp3
      · show LazyPoint.getDistanceTo ⟨0, 20⟩ ⟨0, 0⟩ ≤ 30
        rw [getDistanceTo_eval 0 20 0 0 20 (by norm_num) (by norm_num)]
        norm_num
      · exact absurd hp3 (List.not_mem_nil p)
  exact ⟨rfl, hin, C6_containment sEnabled [⟨10, 0⟩, ⟨0, 20⟩] rfl hin
    [⟨10, 0⟩, ⟨0, 20⟩] [] (List.append_nil _).symm⟩

/-- C7 counterexample: `friction: 0` is provided and strictly below 1, so the claim
demands the clamped damping `min(max(0, 0.01), 1) = 0.01`; but `0` is falsy in
JavaScript, the normalization yields `undefined`, and the displacement is applied in
full: the brush lands at `(70, 0)`, not at the damped position `(0.7, 0)`. -/
theorem C7_counterexample :
    ((sEnabled.update ⟨100, 0⟩ ⟨false, some 0⟩).1).brush = (⟨70, 0⟩ : LazyPoint) ∧
    sEnabled.brush.moveByAngle 0 (100 - sEnabled.radius) (some (min (max 0 0.01) 1)) =
      (⟨0.7, 0⟩ : LazyPoint) ∧
    (⟨70, 0⟩ : LazyPoint) ≠ (⟨0.7, 0⟩ : LazyPoint) := by
  have heff : effectiveFriction ⟨false, some 0⟩ = none := by
    show (if (0:ℝ) ≠ 0 ∧ (0:ℝ) < 1 then some (min (max 0 0.01) 1) else none) = none
    rw [if_neg]
    rintro ⟨h, -⟩
    exact h rfl
  refine ⟨?_, ?_, ?_⟩
  · rw [sEnabled_update_100_gen ⟨false, some 0⟩ rfl heff]
  · rw [sEnabled_brush, sEnabled_radius, moveByAngle_zero_some]
    have h07 : (0:ℝ) + (100 - 30) * min (max 0 0.01) 1 = 0.7 := by
      rw [show max (0:ℝ) 0.01 = 0.01 from max_eq_right (by norm_num),
        show min (0.01:ℝ) 1 = 0.01 from min_eq_left (by norm_num)]
      norm_num
    rw [h07]
  · intro h
    have hx := congrArg LazyPoint.x h
    norm_num at hx

/-- C7 (amended): in an enabled-mode update that displaces the brush, a provided
nonzero friction strictly below 1 is clamped into `[0.01, 1]` and damps the
displacement; a friction of exactly 0 (falsy), a friction ≥ 1, or no friction leaves
the displacement undamped. -/
theorem C7_friction_clamping (s : LazyBrush) (p : Point) (fo : Option ℝ)
    (hen : s._isEnabled = true) (hne : ¬ s.pointer.equalsTo p)
    (hout : isOutsideTest ((s.pointer.update p).getDistanceTo s.brush) s.radius) :
    (∀ f : ℝ, fo = some f → f ≠ 0 → f < 1 →
      ((s.update p ⟨false, fo⟩).1).brush =
        s.brush.moveByAngle ((s.pointer.update p).getAngleTo s.brush)
          ((s.pointer.update p).getDistanceTo s.brush - s.radius)
          (some (min (max f 0.01) 1))) ∧
    (∀ f : ℝ, fo = some f → 1 ≤ f →
      ((s.update p ⟨false, fo⟩).1).brush =
        s.brush.moveByAngle ((s.pointer.update p).getAngleTo s.brush)
          ((s.pointer.update p).getDistanceTo s.brush - s.radius) none) ∧
    (fo = none →
      ((s.update p ⟨false, fo⟩).1).brush =
        s.brush.moveByAngle ((s.pointer.update p).getAngleTo s.brush)
          ((s.pointer.update p).getDistanceTo s.brush - s.radius) none) := by
  refine ⟨?_, ?_, ?_⟩
  · rintro f rfl hf0 hf1
    have heff : effectiveFriction ⟨false, some f⟩ = some (min (max f 0.01) 1) := by
      show (if f ≠ 0 ∧ f < 1 then some (min (max f 0.01) 1) else none) = _
      rw [if_pos ⟨hf0, hf1⟩]
    rw [update_enabled_outside s p ⟨false, some f⟩ (Or.inl hne) rfl hen hout, heff]
  · rintro f rfl hf1
    have heff : effectiveFriction ⟨false, some f⟩ = none := by
      show (if f ≠ 0 ∧ f < 1 then some (min (max f 0.01) 1) else none) = none
      rw [if_neg]
      rintro ⟨-, hlt⟩
      exact absurd hlt (not_lt.mpr hf1)
    rw [update_enabled_outside s p ⟨false, some f⟩ (Or.inl hne) rfl hen hout, heff]
  · rintro rfl
    rw [update_enabled_outside s p ⟨false, none⟩ (Or.inl hne) rfl hen hout]
    rfl

theorem C7_witness :
    sEnabled._isEnabled = true ∧ ¬ sEnabled.pointer.equalsTo ⟨100, 0⟩ ∧
    isOutsideTest ((sEnabled.pointer.update ⟨100, 0⟩).getDistanceTo sEnabled.brush)
      sEnabled.radius ∧
    ((sEnabled.update ⟨100, 0⟩ ⟨false, some (1 / 2)⟩).1).brush =
      sEnabled.brush.moveByAngle
        ((sEnabled.pointer.update ⟨100, 0⟩).getAngleTo sEnabled.brush)
        ((sEnabled.pointer.update ⟨100, 0⟩).getDistanceTo sEnabled.brush - sEnabled.radius)
        (some (min (max (1 / 2) 0.01) 1)) :=
  ⟨rfl, hne_100, hout_100,
    (C7_friction_clamping sEnabled ⟨100, 0⟩ (some (1 / 2)) rfl hne_100 hout_100).1
      (1 / 2) rfl (by norm_num) (by norm_num)⟩

/-- C8 counterexample: with radius 0 and a pointer-brush distance of 0.04, the
distance is strictly positive, yet the rounded outside test is false (0.4 rounds to
0), so the brush would not move: the test is not `true` whenever `distance > 0`. -/
theorem C8_counterexample :
    (0:ℝ) ≤ 0 ∧ (0:ℝ) < 1 / 25 ∧ ¬ isOutsideTest (1 / 25) 0 := by
  refine ⟨le_refl 0, by norm_num, ?_⟩
  rw [isOutsideTest_iff]
  norm_num

/-- C8 (amended): `setRadius` stores a zero or negative radius unvalidated, and with
such a radius the outside test holds exactly when the distance exceeds the radius by
at least 0.05 — in particular for every distance ≥ radius + 0.05, but not for every
strictly positive distance. -/
theorem C8_small_radius (s : LazyBrush) (r d : ℝ) (_hr : r ≤ 0) :
    (s.setRadius r).radius = r ∧ (isOutsideTest d r ↔ 1 / 20 ≤ d - r) :=
  ⟨rfl, isOutsideTest_iff d r⟩

theorem C8_witness :
    (0:ℝ) ≤ 0 ∧
      ((sDefault.setRadius 0).radius = 0 ∧ (isOutsideTest 1 0 ↔ (1:ℝ) / 20 ≤ (1:ℝ) - 0)) :=
  ⟨le_refl 0, C8_small_radius sDefault 0 1 (le_refl 0)⟩

/-- C9 counterexample: from the enabled controller at the origin, `update((0,0),
{friction: 0.5})` is not short-circuited (truthy friction), recomputes distance 0 and
angle 0 over their old values, moves nothing, and returns `true` although not a
single component of the state changed. -/
theorem C9_counterexample :
    (sEnabled.update ⟨0, 0⟩ ⟨false, some (1 / 2)⟩).2 = true ∧
    (sEnabled.update ⟨0, 0⟩ ⟨false, some (1 / 2)⟩).1 = sEnabled := by
  have htr : OptNum.truthy (some ((1:ℝ) / 2)) := by
    show (1:ℝ) / 2 ≠ 0
    norm_num
  have hd : (sEnabled.pointer.update ⟨0, 0⟩).getDistanceTo sEnabled.brush = 0 := by
    rw [show sEnabled.pointer.update ⟨0, 0⟩ = (⟨0, 0⟩ : LazyPoint) from rfl, sEnabled_brush]
    exact getDistanceTo_eval 0 0 0 0 0 (by norm_num) (le_refl 0)
  have hout : ¬ isOutsideTest ((sEnabled.pointer.update ⟨0, 0⟩).getDistanceTo sEnabled.brush)
      sEnabled.radius := by
    rw [hd, sEnabled_radius, isOutsideTest_iff]
    norm_num
  have ha : (sEnabled.pointer.update ⟨0, 0⟩).getAngleTo sEnabled.brush = 0 := by
    rw [show sEnabled.pointer.update ⟨0, 0⟩ = (⟨0, 0⟩ : LazyPoint) from rfl, sEnabled_brush]
    show atan2 ((0:ℝ) - 0) ((0:ℝ) - 0) = 0
    rw [sub_zero, atan2_zero_zero]
  rw [update_enabled_inside sEnabled ⟨0, 0⟩ ⟨false, some (1 / 2)⟩ (Or.inr htr) rfl
    sEnabled_isEnabled hout, hd, ha]
  exact ⟨rfl, rfl⟩

/-- C9 (amended): `update` returns `false` exactly when the short-circuit applies
(the input equals the current pointer, `both` is unset and `friction` is falsy), and
a `false` return leaves every component unchanged except `hasMoved`, which is reset
to `false`; a `true` return does not imply that any component changed. -/
theorem C9_return_iff (s : LazyBrush) (p : Point) (o : LazyBrushUpdateOptions) :
    ((s.update p o).2 = false ↔
      s.pointer.equalsTo p ∧ o.both = false ∧ ¬ OptNum.truthy o.friction) ∧
    ((s.update p o).2 = false → (s.update p o).1 = { s with _hasMoved := false }) := by
  by_cases hsc : s.pointer.equalsTo p ∧ o.both = false ∧ ¬ OptNum.truthy o.friction
  · rw [update_shortCircuit s p o hsc.1 hsc.2.1 hsc.2.2]
    exact ⟨⟨fun _ => hsc, fun _ => rfl⟩, fun _ => rfl⟩
  · have ht : (s.update p o).2 = true := by
      unfold LazyBrush.update
      rw [if_neg hsc]
      split
      · rfl
      · split
        · split
          · rfl
          · rfl
        · rfl
    rw [ht]
    refine ⟨⟨fun h => absurd h (by simp), fun hc => absurd hc hsc⟩, fun h => absurd h (by simp)⟩

theorem C9_witness :
    (sDefault.update ⟨0, 0⟩ ⟨false, none⟩).1 = { sDefault with _hasMoved := false } := by
  have h := C9_return_iff sDefault ⟨0, 0⟩ ⟨false, none⟩
  exact h.2 (h.1.mpr ⟨⟨rfl, rfl⟩, rfl, OptNum.not_truthy_none⟩)

/-- C10: constructing a controller with the option `radius: 0` yields `getRadius() = 30`
(the falsy option value falls back to the default), unlike `setRadius(0)`, which
stores 0. -/
theorem C10_zero_radius_option :
    (LazyBrush.construct ⟨some 0, none, none⟩).getRadius = 30 ∧
    ((LazyBrush.construct ⟨some 0, none, none⟩).setRadius 0).getRadius = 0 := by
  constructor
  · show (if (0:ℝ) = 0 then RADIUS_DEFAULT else 0) = 30
    rw [if_pos rfl]
    rfl
  · rfl

end LazyBrushLib
